import Mathlib

/-!
Verification model of the resilient API client of the autoexpress dashboard
(class ApiService, src/unnamed/part_001).  Pure Lean functions mirror the
JavaScript methods one by one; the mutable client object (in-memory token,
localStorage, dispatched window events, request counter) is threaded
explicitly as a ClientState value, and the network transport is abstracted
as a function from the attempt index to that attempt's outcome.
-/

namespace ApiService

/-- A dispatched window CustomEvent, as produced by
window.dispatchEvent(new CustomEvent(eventName, detail)).  Only the detail
fields actually used by the client (hasToken, message) are modelled. -/
structure Notification where
  eventName : String
  hasToken : Option Bool := none
  message : Option String := none
  deriving DecidableEq

/-- The mutable state of one ApiService instance together with its ambient
browser environment: this.token, localStorage (an association list of
string keys to string values), the stream of dispatched events, and
this.requestCounter. -/
structure ClientState where
  token : Option String := none
  storage : List (String × String) := []
  events : List Notification := []
  requestCounter : Nat := 0
  deriving DecidableEq

/-- localStorage.setItem: replace the value under an existing key, or
append the pair when the key is new. -/
def setItem : List (String × String) → String → String → List (String × String)
  | [], k, v => [(k, v)]
  | (k0, v0) :: rest, k, v =>
    if k0 == k then (k, v) :: rest else (k0, v0) :: setItem rest k v

/-- localStorage.getItem. -/
def getItem : List (String × String) → String → Option String
  | [], _ => none
  | (k0, v0) :: rest, k => if k0 == k then some v0 else getItem rest k

/-- localStorage.removeItem. -/
def removeItem (s : List (String × String)) (k : String) : List (String × String) :=
  s.filter (fun p => p.1 != k)

/-- setToken (part_001 lines 488-496): stores the token in memory and in
localStorage under the key crm_auth_token, then dispatches one
auth-token-changed event whose detail carries hasToken = !!token, which for
a string argument is true exactly when the string is nonempty. -/
def setToken (st : ClientState) (token : String) : ClientState :=
  { st with
    token := some token
    storage := setItem st.storage "crm_auth_token" token
    events := st.events ++
      [{ eventName := "auth-token-changed", hasToken := some (token != "") }] }

/-- clearToken (part_001 lines 501-509): nulls the in-memory token, removes
the persisted entry and dispatches one auth-token-changed event with
hasToken = false. -/
def clearToken (st : ClientState) : ClientState :=
  { st with
    token := none
    storage := removeItem st.storage "crm_auth_token"
    events := st.events ++
      [{ eventName := "auth-token-changed", hasToken := some false }] }

/-- triggerAuthRequired (part_001 lines 255-260): dispatches the
auth-required event with the fixed message detail. -/
def triggerAuthRequired (st : ClientState) : ClientState :=
  { st with
    events := st.events ++
      [{ eventName := "auth-required", message := some "Please log in again" }] }

/-- handleAuthError (part_001 lines 244-250): clear the invalid token, then
raise the auth-required notification. -/
def handleAuthError (st : ClientState) : ClientState :=
  triggerAuthRequired (clearToken st)

/-- JS substring containment on char lists: does hay start with sub? -/
def startsWithChars : List Char → List Char → Bool
  | _, [] => true
  | [], _ :: _ => false
  | c :: cs, d :: ds => c == d && startsWithChars cs ds

/-- JS substring containment on char lists: does sub occur anywhere in hay? -/
def containsChars : List Char → List Char → Bool
  | [], sub => sub.isEmpty
  | c :: rest, sub => startsWithChars (c :: rest) sub || containsChars rest sub

/-- JavaScript String.prototype.includes, used by the client on error
messages. -/
def strIncludes (s sub : String) : Bool := containsChars s.data sub.data

/-- A JavaScript Error object as the client builds and inspects it: the
built-in name and message, plus the custom fields status, type and
requestId that handleHTTPError / normalizeError attach.  Absent fields are
none (JS undefined). -/
structure JsError where
  name : String := "Error"
  message : String := ""
  status : Option Nat := none
  type : Option String := none
  requestId : Option String := none
  deriving DecidableEq

/-- JS truthiness of an optional string field: undefined and the empty
string are falsy. -/
def truthyStr (o : Option String) : Bool := o.getD "" != ""

/-- The closed ten-value error taxonomy of the client (spec section 4.3). -/
def errorKinds : List String :=
  ["AUTH_ERROR", "FORBIDDEN", "NOT_FOUND", "RATE_LIMIT", "SERVER_ERROR",
   "NETWORK_ERROR", "TIMEOUT", "PARSE_ERROR", "HTTP_ERROR", "UNKNOWN_ERROR"]

/-- The status-code switch of handleHTTPError (part_001 lines 129-153). -/
def statusErrorType (status : Nat) : String :=
  if status == 401 then "AUTH_ERROR"
  else if status == 403 then "FORBIDDEN"
  else if status == 404 then "NOT_FOUND"
  else if status == 429 then "RATE_LIMIT"
  else if status == 500 then "SERVER_ERROR"
  else if status == 502 || status == 503 || status == 504 then "NETWORK_ERROR"
  else "HTTP_ERROR"

/-- handleHTTPError (part_001 lines 109-156): builds the error carrying the
HTTP status, the message already extracted from the response body (the
body-JSON / statusText fallback is abstracted into the message argument),
the request id and the classified type; the 401 case additionally runs
handleAuthError.  Returns the error together with the possibly-updated
client state. -/
def handleHTTPError (st : ClientState) (status : Nat) (message requestId : String) :
    JsError × ClientState :=
  ({ name := "Error", message := message, status := some status,
     type := some (statusErrorType status), requestId := some requestId },
   if status == 401 then handleAuthError st else st)

/-- determineErrorType (part_001 lines 228-239). -/
def determineErrorType (e : JsError) : String :=
  if e.name == "AbortError" then "TIMEOUT"
  else if strIncludes e.message "Network" || strIncludes e.message "Failed to fetch" then
    "NETWORK_ERROR"
  else if strIncludes e.message "JSON" then "PARSE_ERROR"
  else "UNKNOWN_ERROR"

/-- normalizeError (part_001 lines 210-223): an error that already carries
a truthy type and requestId is returned unchanged; otherwise a fresh error
is built with the original message (or the fallback), the classified type
and the current request id. -/
def normalizeError (e : JsError) (requestId : String) : JsError :=
  if truthyStr e.type && truthyStr e.requestId then e
  else
    { name := "Error"
      message := if e.message == "" then "Unknown API error" else e.message
      status := none
      type := some (determineErrorType e)
      requestId := some requestId }

/-- The retryableErrors list of shouldRetry (part_001 lines 178-183). -/
def retryableErrors : List String :=
  ["NETWORK_ERROR", "TIMEOUT", "SERVER_ERROR", "RATE_LIMIT"]

/-- shouldRetry (part_001 lines 177-188): true when the error's type field
is one of the four retryable kinds (JS includes(undefined) is false when
the field is absent), or when the message text contains the word Network
or the phrase Failed to fetch. -/
def shouldRetry (e : JsError) : Bool :=
  (match e.type with
   | some t => retryableErrors.contains t
   | none => false)
  || strIncludes e.message "Network" || strIncludes e.message "Failed to fetch"

/-- The attempt-count side of the retry decision in request (part_001 line
97): !options.retryCount || options.retryCount < 3, with an absent
retryCount (first attempt) and the falsy 0 both passing. -/
def retryCond (rc : Option Nat) : Bool :=
  match rc with
  | none => true
  | some k => k == 0 || decide (k < 3)

/-- The backoff delay computed inside retryRequest (part_001 line 195):
Math.min(1000 * Math.pow(2, retryCount), 30000), where retryCount is the
1-based count of the retry about to run. -/
def delayFor (retryCount : Nat) : Nat := min (1000 * 2 ^ retryCount) 30000

/-- generateRequestId (part_001 lines 265-267): increments
this.requestCounter and builds the id from it (the Date.now() wall-clock
component is omitted; it plays no role in any claim). -/
def generateRequestId (st : ClientState) : String × ClientState :=
  ("req_" ++ toString (st.requestCounter + 1),
   { st with requestCounter := st.requestCounter + 1 })

/-- The outcome of one live attempt, abstracting fetch + parseResponse:
a parsed successful payload, a non-ok HTTP response (status plus the
message extracted from its body), or a raw thrown error (abort, network
TypeError, body-decode failure). -/
inductive AttemptOutcome where
  | success : String → AttemptOutcome
  | httpError : Nat → String → AttemptOutcome
  | throwErr : JsError → AttemptOutcome
  deriving DecidableEq

/-- What request ultimately delivers to its caller: the resolved payload or
the rejected (thrown) error. -/
inductive RequestResult where
  | ok : String → RequestResult
  | err : JsError → RequestResult
  deriving DecidableEq

/-- The request / retryRequest recursion (part_001 lines 37-104 and
193-205) over an abstract transport giving each attempt's outcome.  Each
level: generate a request id; on a non-ok response build (and on 401
side-effect through) handleHTTPError; on any caught error decide
shouldRetry(error) && (!options.retryCount || options.retryCount < 3); a
retry suspends for delayFor(retryCount+1) ms (recorded in the returned
delay list) and recurses with the incremented retryCount; otherwise the
normalized error is thrown.  The fuel argument only bounds the recursion
depth; the retry ceiling makes 4 sufficient from a public call. -/
def requestGo : Nat → (Nat → AttemptOutcome) → ClientState → Option Nat →
    Option (RequestResult × ClientState × List Nat)
  | 0, _, _, _ => none
  | fuel + 1, transport, st, rc =>
    let n := rc.getD 0
    let p := generateRequestId st
    match transport n with
    | .success d => some (.ok d, p.2, [])
    | .httpError status msg =>
      let q := handleHTTPError p.2 status msg p.1
      if shouldRetry q.1 && retryCond rc then
        match requestGo fuel transport q.2 (some (n + 1)) with
        | some (res, st2, ds) => some (res, st2, delayFor (n + 1) :: ds)
        | none => none
      else some (.err (normalizeError q.1 p.1), q.2, [])
    | .throwErr e =>
      if shouldRetry e && retryCond rc then
        match requestGo fuel transport p.2 (some (n + 1)) with
        | some (res, st2, ds) => some (res, st2, delayFor (n + 1) :: ds)
        | none => none
      else some (.err (normalizeError e p.1), p.2, [])

/-- A public request(endpoint, options) call: retryCount is unset, so at
most 4 attempts (1 + 3 retries) can occur and fuel 4 is exact. -/
def request (transport : Nat → AttemptOutcome) (st : ClientState) :
    Option (RequestResult × ClientState × List Nat) :=
  requestGo 4 transport st none

/-- Structured JSON values, the shapes the mock router produces. -/
inductive JsonVal where
  | obj : List (String × JsonVal) → JsonVal
  | arr : List JsonVal → JsonVal
  | str : String → JsonVal
  | num : Int → JsonVal
  | jbool : Bool → JsonVal

/-- Which execution path a public wrapper method takes for one call:
delegate to the mock router, answer from the local preferences simulation,
or issue a live network request through this.request. -/
inductive WrapperAction where
  | mockRoute : String → String → WrapperAction
  | localPrefs : WrapperAction
  | liveRequest : String → String → WrapperAction
  deriving DecidableEq

/-- URLSearchParams(params).toString() as used by get (percent-encoding is
not modelled; no claim depends on it). -/
def buildQuery : List (String × String) → String
  | [] => ""
  | [(k, v)] => k ++ "=" ++ v
  | (k, v) :: rest => k ++ "=" ++ v ++ "&" ++ buildQuery rest

/-- The dispatch performed by get (part_001 lines 274-281): in mock mode it
delegates to mockGet before any query string is built; otherwise it issues
a live GET through request. -/
def getAction (mockMode : Bool) (endpoint : String) (params : List (String × String)) :
    WrapperAction :=
  if mockMode then .mockRoute "GET" endpoint
  else
    let qs := buildQuery params
    .liveRequest "GET" (if qs != "" then endpoint ++ "?" ++ qs else endpoint)

/-- The dispatch performed by post (part_001 lines 286-294): mock mode
delegates to mockPost, otherwise a live POST. -/
def postAction (mockMode : Bool) (endpoint : String) : WrapperAction :=
  if mockMode then .mockRoute "POST" endpoint else .liveRequest "POST" endpoint

/-- The dispatch performed by put (part_001 lines 299-311): in mock mode
only the endpoint /user/preferences is simulated locally; every other
endpoint falls through to a live PUT even when mock mode is active. -/
def putAction (mockMode : Bool) (endpoint : String) : WrapperAction :=
  if mockMode && endpoint == "/user/preferences" then .localPrefs
  else .liveRequest "PUT" endpoint

/-- The dispatch performed by patch (part_001 lines 316-321): there is no
mock-mode branch at all, so a PATCH always goes to the live transport. -/
def patchAction (_mockMode : Bool) (endpoint : String) : WrapperAction :=
  .liveRequest "PATCH" endpoint

/-- The dispatch performed by delete (part_001 lines 326-328): like patch,
it has no mock-mode branch. -/
def deleteAction (_mockMode : Bool) (endpoint : String) : WrapperAction :=
  .liveRequest "DELETE" endpoint

/-- The summary block of the getMockOpportunities fixture (part_001 lines
706-713). -/
def mockOpportunitySummary : JsonVal :=
  .obj
    [("totalPipelineValue", .num 295000), ("activeOpportunities", .num 3),
     ("averageDealSize", .num 98333), ("averageDealAge", .num 776),
     ("winRate", .num 33), ("totalOpportunities", .num 3)]

/-- First opportunity of the getMockOpportunities fixture (part_001 lines
589-627). -/
def mockOpportunityOne : JsonVal :=
  .obj
    [("opportunity_id", .str "OP 662800"),
     ("opportunity_number", .str "1755066275263x905617189420662800"),
     ("customer_name", .str "John Smith"),
     ("customer_email", .str "john.smith@example.com"),
     ("customer_phone", .str "+1234567890"),
     ("customer_type", .str "Existing"),
     ("customer_rating", .str "A"),
     ("company", .str "Company A"),
     ("location", .str "New York"),
     ("age", .str "1154.2"),
     ("status", .str "progress"),
     ("source", .str "Chat"),
     ("campaign", .str "Web Chat"),
     ("product_details",
      .arr [.obj [("name", .str "Enterprise Suite"), ("category", .str "Software"),
                  ("quantity", .num 1), ("unit_price", .num 50000),
                  ("total_price", .num 50000)]]),
     ("services_details",
      .arr [.obj [("name", .str "Implementation"),
                  ("category", .str "Professional Services"),
                  ("quantity", .num 1), ("unit_price", .num 15000),
                  ("total_price", .num 15000)]]),
     ("comments", .str "Opp Created from Chat. Subject: Do you have Archie comics been looking for them for a while 🙂"),
     ("date_created", .str "1755066206661"),
     ("created_by", .str "Sharon Kwamboka"),
     ("assigned_to", .str "Sharon Kwamboka"),
     ("Asset_Name", .arr []),
     ("amount", .num 65000)]

/-- Second opportunity of the fixture (part_001 lines 628-658). -/
def mockOpportunityTwo : JsonVal :=
  .obj
    [("opportunity_id", .str "OP 849600"),
     ("opportunity_number", .str "1755066281548x628851611965849600"),
     ("customer_name", .str "Sarah Johnson"),
     ("customer_email", .str "sarah.j@example.com"),
     ("customer_phone", .str "+1234567891"),
     ("customer_type", .str "New"),
     ("customer_rating", .str "B"),
     ("company", .str "Company A"),
     ("location", .str "Chicago"),
     ("age", .str "1154.2"),
     ("status", .str "new"),
     ("source", .str "Referral"),
     ("campaign", .str "Partner Program"),
     ("product_details",
      .arr [.obj [("name", .str "Business Pro"), ("category", .str "Software"),
                  ("quantity", .num 2), ("unit_price", .num 25000),
                  ("total_price", .num 50000)]]),
     ("services_details", .arr []),
     ("comments", .str "Referred by existing customer Mark Wilson"),
     ("date_created", .str "1755066212909"),
     ("created_by", .str "David Chen"),
     ("assigned_to", .str "David Chen"),
     ("Asset_Name", .arr []),
     ("amount", .num 50000)]

/-- Third opportunity of the fixture (part_001 lines 659-704). -/
def mockOpportunityThree : JsonVal :=
  .obj
    [("opportunity_id", .str "OP 491810"),
     ("opportunity_number", .str "1755066298765x123456789012345678"),
     ("customer_name", .str "Mike Thompson"),
     ("customer_email", .str "mike.t@example.com"),
     ("customer_phone", .str "+1234567892"),
     ("customer_type", .str "Existing"),
     ("customer_rating", .str "A+"),
     ("company", .str "Company A"),
     ("location", .str "San Francisco"),
     ("age", .str "20.5"),
     ("status", .str "closed_won"),
     ("source", .str "Website"),
     ("campaign", .str "Enterprise Campaign"),
     ("product_details",
      .arr [.obj [("name", .str "Enterprise Platform"), ("category", .str "Software"),
                  ("quantity", .num 1), ("unit_price", .num 120000),
                  ("total_price", .num 120000)]]),
     ("services_details",
      .arr [.obj [("name", .str "Custom Development"),
                  ("category", .str "Professional Services"),
                  ("quantity", .num 1), ("unit_price", .num 45000),
                  ("total_price", .num 45000)],
            .obj [("name", .str "Training"), ("category", .str "Education"),
                  ("quantity", .num 1), ("unit_price", .num 15000),
                  ("total_price", .num 15000)]]),
     ("comments", .str "Enterprise customer expanding their usage"),
     ("date_created", .str "1755066221234"),
     ("created_by", .str "Maria Garcia"),
     ("assigned_to", .str "Maria Garcia"),
     ("Asset_Name", .arr []),
     ("amount", .num 180000)]

/-- getMockOpportunities (part_001 lines 583-721); the simulated 1000ms
latency is not part of any claim and is not modelled. -/
def getMockOpportunities : JsonVal :=
  .obj
    [("opportunities", .arr [mockOpportunityOne, mockOpportunityTwo, mockOpportunityThree]),
     ("summary", mockOpportunitySummary),
     ("pagination", .obj [("page", .num 1), ("limit", .num 100), ("total", .num 3),
                          ("pages", .num 1)])]

/-- One entry of the getMockSalesOrders fixture. -/
structure SalesOrder where
  order_id : String
  order_number : String
  customer_name : String
  date_created : String
  status : String
  total_order_value : Int
  items : Int
  assigned_to : String
  deriving DecidableEq

/-- The three fixture orders of getMockSalesOrders (part_001 lines
795-830); Date.now() is passed in as now. -/
def mockSalesOrderList (now : Int) : List SalesOrder :=
  [{ order_id := "SO-2024-001", order_number := "SO-2024-001",
     customer_name := "Global Tech Inc",
     date_created := toString (now - 3 * 24 * 60 * 60 * 1000), status := "delivered",
     total_order_value := 18450, items := 3, assigned_to := "David Chen" },
   { order_id := "SO-2024-002", order_number := "SO-2024-002",
     customer_name := "Nexus Solutions",
     date_created := toString (now - 4 * 24 * 60 * 60 * 1000), status := "shipped",
     total_order_value := 12800, items := 2, assigned_to := "Sarah Jones" },
   { order_id := "SO-2024-003", order_number := "SO-2024-003",
     customer_name := "Inghb Corporation",
     date_created := toString (now - 5 * 24 * 60 * 60 * 1000), status := "processing",
     total_order_value := 24300, items := 5, assigned_to := "Maria Garcia" }]

/-- The JSON shape of one fixture order. -/
def orderJson (o : SalesOrder) : JsonVal :=
  .obj [("order_id", .str o.order_id), ("order_number", .str o.order_number),
        ("customer_name", .str o.customer_name), ("date_created", .str o.date_created),
        ("status", .str o.status), ("total_order_value", .num o.total_order_value),
        ("items", .num o.items), ("assigned_to", .str o.assigned_to)]

/-- getMockSalesOrders (part_001 lines 795-830). -/
def getMockSalesOrders (now : Int) : JsonVal :=
  .obj [("orders", .arr ((mockSalesOrderList now).map orderJson))]

/-- JavaScript Math.round(p / q) for integers p and exact positive q:
round-half-up implemented as the floor of (2p + q) / (2q). -/
def jsRound (p q : Int) : Int := Int.fdiv (2 * p + q) (2 * q)

/-- summarizeSalesOrders (part_001 lines 832-843). -/
def summarizeSalesOrders (orders : List SalesOrder) : JsonVal :=
  if orders.isEmpty then
    .obj [("totalOrderValue", .num 0), ("totalOrders", .num 0),
          ("deliveredOrders", .num 0), ("avgOrderValue", .num 0),
          ("fulfillmentRate", .num 0)]
  else
    let totalValue := orders.foldl (fun s o => s + o.total_order_value) 0
    let delivered := ((orders.filter (fun o => o.status == "delivered")).length : Int)
    .obj [("totalOrderValue", .num totalValue),
          ("totalOrders", .num (orders.length : Int)),
          ("deliveredOrders", .num delivered),
          ("avgOrderValue", .num (jsRound totalValue (orders.length : Int))),
          ("fulfillmentRate", .num (jsRound (delivered * 100) (orders.length : Int)))]

/-- The characters before the first question mark. -/
def takeBeforeQM : List Char → List Char
  | [] => []
  | c :: rest => if c == '?' then [] else c :: takeBeforeQM rest

/-- JavaScript endpoint.split('?')[0]: the endpoint with any query string
stripped. -/
def stripQuery (s : String) : String := String.mk (takeBeforeQM s.data)

/-- mockGet (part_001 lines 726-762): the route is matched on the endpoint
with any query string stripped; unmatched paths return the empty object.
Date.now() is the now argument; the stored crm_user_preferences entry is
passed as its parsed JSON value (the JSON.stringify / JSON.parse
round-trip of localStorage is the identity on structured values).  The
simulated 200ms latency carries no data and is not modelled. -/
def mockGet (now : Int) (prefs : Option JsonVal) (endpoint : String) : JsonVal :=
  let path := stripQuery endpoint
  if path == "/opportunities" then getMockOpportunities
  else if path == "/sales-orders" then getMockSalesOrders now
  else if path == "/dashboard/summary" then
    .obj [("opportunities", mockOpportunitySummary),
          ("salesOrders", summarizeSalesOrders (mockSalesOrderList now))]
  else if path == "/helpdesk-tickets" then
    .obj [("tickets",
           .arr [.obj [("id", .str "HD-1001"), ("status", .str "open"),
                       ("priority", .str "high"), ("subject", .str "Login issue"),
                       ("created_at", .num (now - 86400000))],
                 .obj [("id", .str "HD-1002"), ("status", .str "in_progress"),
                       ("priority", .str "medium"),
                       ("subject", .str "Billing discrepancy"),
                       ("created_at", .num (now - 43200000))]]),
          ("pagination", .obj [("page", .num 1), ("total", .num 2)])]
  else if path == "/user/preferences" then
    match prefs with
    | some p => p
    | none => .obj [("theme", .str "light"), ("pageSize", .num 25)]
  else .obj []

/-- mockPost (part_001 lines 767-790): matched on the exact endpoint; the
auth routes also update the token store; every unmatched endpoint resolves
with the success-true object. -/
def mockPost (now : Int) (st : ClientState) (endpoint : String) (_data : JsonVal) :
    JsonVal × ClientState :=
  if endpoint == "/pdf/generate" then
    (.obj [("id", .str ("pdf_" ++ toString now)), ("status", .str "generated")], st)
  else if endpoint == "/email/send" then (.obj [("success", .jbool true)], st)
  else if endpoint == "/auth/login" then
    (.obj [("token", .str ("mock_" ++ toString now))], setToken st ("mock_" ++ toString now))
  else if endpoint == "/auth/logout" then (.obj [("success", .jbool true)], clearToken st)
  else if endpoint == "/auth/refresh" then
    (.obj [("token", .str ("mock_" ++ toString now))], setToken st ("mock_" ++ toString now))
  else (.obj [("success", .jbool true)], st)

/-- What the awaited this.post call inside logout produced: a resolved
value or a rejected error. -/
inductive PostOutcome where
  | ok : JsonVal → PostOutcome
  | err : JsError → PostOutcome

/-- logout (part_001 lines 462-470): await post(/auth/logout) inside a try
whose catch only logs a warning, with clearToken in the finally block; the
post step is abstracted as a state transformer that may resolve or reject,
and logout itself always resolves (first component none means no error is
propagated). -/
def logout (post : ClientState → PostOutcome × ClientState) (st : ClientState) :
    Option JsError × ClientState :=
  match post st with
  | (.ok _, st1) => (none, clearToken st1)
  | (.err _, st1) => (none, clearToken st1)

/-- Reading a key immediately after writing it yields the written value. -/
theorem getItem_setItem (s : List (String × String)) (k v : String) :
    getItem (setItem s k v) k = some v := by
  induction s with
  | nil => simp [setItem, getItem]
  | cons p rest ih =>
    obtain ⟨k0, v0⟩ := p
    by_cases h : k0 = k
    · subst h
      simp [setItem, getItem]
    · simp [setItem, getItem, beq_iff_eq, h, ih]

/-- Reading a key immediately after removing it yields nothing. -/
theorem getItem_removeItem (s : List (String × String)) (k : String) :
    getItem (removeItem s k) k = none := by
  induction s with
  | nil => simp [removeItem, getItem]
  | cons p rest ih =>
    obtain ⟨k0, v0⟩ := p
    by_cases h : k0 = k
    · subst h
      simpa [removeItem, List.filter_cons] using ih
    · simpa [removeItem, List.filter_cons, getItem, bne_iff_ne, beq_iff_eq, h] using ih

/-- Generated request ids are never the empty string. -/
theorem reqId_ne (k : Nat) : ("req_" ++ toString k) ≠ "" := by
  intro h
  have h1 : ("req_" ++ toString k).length = 0 := by rw [h]; rfl
  rw [String.length_append] at h1
  have h2 : ("req_" : String).length = 4 := rfl
  omega

/-- Boolean form of reqId_ne, shaped for rewriting truthiness checks. -/
theorem reqId_bne (k : Nat) : (("req_" ++ toString k) != "") = true := by
  simpa [bne_iff_ne] using reqId_ne k

/-- Every status classification lands in the ten-kind taxonomy. -/
theorem statusErrorType_mem (s : Nat) : statusErrorType s ∈ errorKinds := by
  unfold statusErrorType
  split_ifs <;> decide

/-- Status classifications are never the empty string. -/
theorem statusErrorType_ne (s : Nat) : statusErrorType s ≠ "" := by
  unfold statusErrorType
  split_ifs <;> decide

/-- Every transport-failure classification lands in the ten-kind
taxonomy. -/
theorem determineErrorType_mem (e : JsError) : determineErrorType e ∈ errorKinds := by
  unfold determineErrorType
  split_ifs <;> decide

/-- The delay list produced by the retry loop is strictly shorter than the
available fuel: with fuel 4 at most 3 backoff suspensions can occur. -/
theorem requestGo_delays_bound (fuel : Nat) :
    ∀ (transport : Nat → AttemptOutcome) (st : ClientState) (rc : Option Nat)
      (r : RequestResult) (s : ClientState) (ds : List Nat),
      requestGo fuel transport st rc = some (r, s, ds) → ds.length < fuel := by
  induction fuel with
  | zero =>
    intro transport st rc r s ds h
    simp [requestGo] at h
  | succ fuel ih =>
    intro transport st rc r s ds h
    simp only [requestGo] at h
    split at h
    · simp only [Option.some.injEq, Prod.mk.injEq] at h
      obtain ⟨-, -, h3⟩ := h
      subst h3
      simp
    · split at h
      · split at h
        · rename_i res st2 ds1 heq
          simp only [Option.some.injEq, Prod.mk.injEq] at h
          obtain ⟨-, -, h3⟩ := h
          subst h3
          have := ih _ _ _ _ _ _ heq
          simp only [List.length_cons]
          omega
        · exact absurd h (by simp)
      · simp only [Option.some.injEq, Prod.mk.injEq] at h
        obtain ⟨-, -, h3⟩ := h
        subst h3
        simp
    · split at h
      · split at h
        · rename_i res st2 ds1 heq
          simp only [Option.some.injEq, Prod.mk.injEq] at h
          obtain ⟨-, -, h3⟩ := h
          subst h3
          have := ih _ _ _ _ _ _ heq
          simp only [List.length_cons]
          omega
        · exact absurd h (by simp)
      · simp only [Option.some.injEq, Prod.mk.injEq] at h
        obtain ⟨-, -, h3⟩ := h
        subst h3
        simp

/-- Every error the retry loop delivers carries a kind from the closed
ten-value taxonomy, provided raw transport throws arrive unclassified
(without a type field), as fetch aborts, network TypeErrors and JSON
decode failures do. -/
theorem requestGo_err_kinds (fuel : Nat) :
    ∀ (transport : Nat → AttemptOutcome) (st : ClientState) (rc : Option Nat)
      (r : RequestResult) (s : ClientState) (ds : List Nat) (e2 : JsError),
      (∀ n e3, transport n = AttemptOutcome.throwErr e3 → e3.type = none) →
      requestGo fuel transport st rc = some (r, s, ds) → r = RequestResult.err e2 →
      ∃ k, e2.type = some k ∧ k ∈ errorKinds := by
  induction fuel with
  | zero =>
    intro transport st rc r s ds e2 hraw h hr
    simp [requestGo] at h
  | succ fuel ih =>
    intro transport st rc r s ds e2 hraw h hr
    simp only [requestGo] at h
    split at h
    · simp only [Option.some.injEq, Prod.mk.injEq] at h
      obtain ⟨h1, -, -⟩ := h
      rw [hr] at h1
      exact absurd h1 (by simp)
    · rename_i status msg hmatch
      split at h
      · split at h
        · rename_i res st2 ds1 heq
          simp only [Option.some.injEq, Prod.mk.injEq] at h
          obtain ⟨h1, -, -⟩ := h
          subst h1
          exact ih _ _ _ _ _ _ _ hraw heq hr
        · exact absurd h (by simp)
      · simp only [Option.some.injEq, Prod.mk.injEq] at h
        obtain ⟨h1, -, -⟩ := h
        rw [hr] at h1
        have h2 : e2 = normalizeError (handleHTTPError (generateRequestId st).2 status msg
            (generateRequestId st).1).1 (generateRequestId st).1 := by
          exact (RequestResult.err.injEq _ _).mp h1.symm
        refine ⟨statusErrorType status, ?_, statusErrorType_mem status⟩
        rw [h2]
        simp [normalizeError, handleHTTPError, truthyStr, generateRequestId,
              bne_iff_ne, statusErrorType_ne status, reqId_ne]
    · rename_i e0 hmatch
      split at h
      · split at h
        · rename_i res st2 ds1 heq
          simp only [Option.some.injEq, Prod.mk.injEq] at h
          obtain ⟨h1, -, -⟩ := h
          subst h1
          exact ih _ _ _ _ _ _ _ hraw heq hr
        · exact absurd h (by simp)
      · simp only [Option.some.injEq, Prod.mk.injEq] at h
        obtain ⟨h1, -, -⟩ := h
        rw [hr] at h1
        have h2 : e2 = normalizeError e0 (generateRequestId st).1 :=
          (RequestResult.err.injEq _ _).mp h1.symm
        have htype : e0.type = none := hraw _ _ hmatch
        refine ⟨determineErrorType e0, ?_, determineErrorType_mem e0⟩
        rw [h2]
        simp [normalizeError, truthyStr, htype]

/-- The rejection a browser fetch produces when its AbortController fires
at the 30s deadline: a DOMException named AbortError, carrying neither a
type nor a requestId field. -/
def abortError : JsError :=
  { name := "AbortError", message := "The user aborted a request." }

/-- A live transport whose first two attempts are aborted by the deadline
timer and whose third attempt would succeed. -/
def timeoutTwiceTransport : Nat → AttemptOutcome := fun n =>
  if n < 2 then .throwErr abortError else .success "payload"

/-- C1: the spec says a deadline abort is classified TIMEOUT and retried
(a live /opportunities call timing out twice then succeeding returns the
payload after 2000ms and 4000ms suspensions).  The code classifies the
abort as TIMEOUT only inside normalizeError, which runs after the retry
decision: shouldRetry inspects the raw AbortError, whose type field is
absent and whose message contains neither Network nor Failed to fetch, so
it returns false and the first timeout is terminal — the caller gets the
TIMEOUT error after one attempt and zero delay suspensions, never reaching
the attempt that would succeed. -/
theorem timeout_never_retried :
    determineErrorType abortError = "TIMEOUT" ∧
    shouldRetry abortError = false ∧
    timeoutTwiceTransport 2 = AttemptOutcome.success "payload" ∧
    request timeoutTwiceTransport {} =
      some (RequestResult.err
              { name := "Error", message := "The user aborted a request.",
                status := none, type := some "TIMEOUT", requestId := some "req_1" },
            { requestCounter := 1 }, []) :=
  ⟨rfl, rfl, rfl, rfl⟩

/-- C2 counterexample: an HTTP 418 error — kind HTTP_ERROR, not one of the
four retryable kinds — whose server-supplied message contains the word
Network is retried three times (backoffs 2000, 4000, 8000), because
shouldRetry also matches on the message text; the claim says errors of any
other kind are never retried regardless of the message. -/
theorem teapot_with_network_message_retried :
    request (fun _ => AttemptOutcome.httpError 418 "Network maintenance") {} =
      some (RequestResult.err
              { name := "Error", message := "Network maintenance", status := some 418,
                type := some "HTTP_ERROR", requestId := some "req_4" },
            { requestCounter := 4 }, [2000, 4000, 8000]) :=
  rfl

/-- C2 (amended): the retry decision of request is true iff the attempt
count is below 3 AND (the classified kind is one of NETWORK_ERROR,
TIMEOUT, SERVER_ERROR, RATE_LIMIT, or the error message contains the word
Network or the phrase Failed to fetch). -/
theorem retry_decision_characterization (e : JsError) (rc : Option Nat) :
    (shouldRetry e && retryCond rc) = true ↔
      ((e.type = some "NETWORK_ERROR" ∨ e.type = some "TIMEOUT" ∨
        e.type = some "SERVER_ERROR" ∨ e.type = some "RATE_LIMIT" ∨
        strIncludes e.message "Network" = true ∨
        strIncludes e.message "Failed to fetch" = true) ∧
       rc.getD 0 < 3) := by
  have h1 : shouldRetry e = true ↔
      (e.type = some "NETWORK_ERROR" ∨ e.type = some "TIMEOUT" ∨
       e.type = some "SERVER_ERROR" ∨ e.type = some "RATE_LIMIT" ∨
       strIncludes e.message "Network" = true ∨
       strIncludes e.message "Failed to fetch" = true) := by
    cases htype : e.type with
    | none => simp [shouldRetry, htype]
    | some t =>
      simp [shouldRetry, htype, retryableErrors, List.contains, List.elem_iff,
            Bool.or_eq_true, or_assoc]
  have h2 : retryCond rc = true ↔ rc.getD 0 < 3 := by
    cases rc with
    | none => simp [retryCond]
    | some k =>
      simp only [retryCond, Option.getD_some, Bool.or_eq_true, beq_iff_eq,
                 decide_eq_true_eq]
      omega
  rw [Bool.and_eq_true, h1, h2]

/-- C3: when every attempt answers HTTP 500 (any message), the caller gets
the terminal normalized error of kind SERVER_ERROR carrying the last
attempt's status and request id, after exactly three backoff suspensions
of 2000, 4000 and 8000 ms and four attempts (the request counter advances
by 4); moreover no call ever performs more than 3 retries. -/
theorem server_error_retry_exhaustion (msg : Nat → String) (st : ClientState) :
    request (fun n => AttemptOutcome.httpError 500 (msg n)) st =
      some (RequestResult.err
              { name := "Error", message := msg 3, status := some 500,
                type := some "SERVER_ERROR",
                requestId := some ("req_" ++ toString (st.requestCounter + 4)) },
            { st with requestCounter := st.requestCounter + 4 },
            [2000, 4000, 8000]) ∧
    (∀ (transport : Nat → AttemptOutcome) (st2 : ClientState) (r : RequestResult)
       (s2 : ClientState) (ds : List Nat),
       request transport st2 = some (r, s2, ds) → ds.length ≤ 3) := by
  constructor
  · simp [request, requestGo, generateRequestId, handleHTTPError, statusErrorType,
          shouldRetry, retryableErrors, retryCond, normalizeError, truthyStr,
          List.contains, List.elem, reqId_bne,
          show delayFor 1 = 2000 from rfl, show delayFor 2 = 4000 from rfl,
          show delayFor 3 = 8000 from rfl,
          show ∀ c : Nat, c + 1 + 1 + 1 + 1 = c + 4 from fun _ => rfl]
  · intro transport st2 r s2 ds h
    have := requestGo_delays_bound 4 transport st2 none r s2 ds h
    omega

/-- C3 witness: the general theorem instantiated with a concrete message
and a fresh client. -/
theorem server_error_retry_exhaustion_witness :
    ([2000, 4000, 8000] : List Nat).length ≤ 3 :=
  (server_error_retry_exhaustion (fun _ => "boom") {}).2
    (fun _ => AttemptOutcome.httpError 500 "boom") {} _ _ _
    (server_error_retry_exhaustion (fun _ => "boom") {}).1

/-- C4: the backoff delay for the 1-based retry count n is
min(1000 * 2 ^ n, 30000) — 2000, 4000, 8000 for retries 1, 2, 3 — and is
capped by 30000 for every n. -/
theorem backoff_delay_values :
    delayFor 1 = 2000 ∧ delayFor 2 = 4000 ∧ delayFor 3 = 8000 ∧
    (∀ n, delayFor n = min (1000 * 2 ^ n) 30000) ∧ ∀ n, delayFor n ≤ 30000 :=
  ⟨rfl, rfl, rfl, fun _ => rfl, fun _ => Nat.min_le_right _ _⟩

/-- C5 counterexample: with mock mode active, a PATCH still issues a live
network request through this.request — the patch wrapper has no mock-mode
branch — contradicting the claim that every public request operation is
answered by the mock router. -/
theorem patch_mock_mode_goes_live :
    patchAction true "/opportunities" = WrapperAction.liveRequest "PATCH" "/opportunities" ∧
    WrapperAction.liveRequest "PATCH" "/opportunities" ≠
      WrapperAction.mockRoute "PATCH" "/opportunities" :=
  ⟨rfl, by decide⟩

/-- C5 (amended): in mock mode, get and post are answered by the mock
router (and never reach the live transport); put is simulated locally only
for /user/preferences and otherwise issues a live call; patch and delete
always issue live transport calls, even in mock mode. -/
theorem mock_mode_dispatch (endpoint : String) (params : List (String × String)) :
    getAction true endpoint params = WrapperAction.mockRoute "GET" endpoint ∧
    postAction true endpoint = WrapperAction.mockRoute "POST" endpoint ∧
    putAction true "/user/preferences" = WrapperAction.localPrefs ∧
    (endpoint ≠ "/user/preferences" →
       putAction true endpoint = WrapperAction.liveRequest "PUT" endpoint) ∧
    (∀ m : Bool, patchAction m endpoint = WrapperAction.liveRequest "PATCH" endpoint) ∧
    (∀ m : Bool, deleteAction m endpoint = WrapperAction.liveRequest "DELETE" endpoint) := by
  refine ⟨rfl, rfl, rfl, ?_, fun _ => rfl, fun _ => rfl⟩
  intro h
  simp [putAction, beq_iff_eq, h]

/-- C5 witness: a concrete non-preferences endpoint. -/
theorem mock_mode_dispatch_witness :
    putAction true "/opportunities" = WrapperAction.liveRequest "PUT" "/opportunities" :=
  (mock_mode_dispatch "/opportunities" []).2.2.2.1 (by decide)

/-- C6: classifying HTTP 401 yields kind AUTH_ERROR, clears the stored
token in memory and in persistent storage, and emits the token-cleared
and auth-required notifications; classifying any other status leaves the
client state (token, storage, events) completely unchanged.  The
transport-failure classifiers determineErrorType and normalizeError are
pure functions of their arguments and touch no state by construction. -/
theorem auth_error_classification_effects (st : ClientState) (status : Nat)
    (msg rid : String) :
    (status = 401 →
       (handleHTTPError st status msg rid).1.type = some "AUTH_ERROR" ∧
       (handleHTTPError st status msg rid).2.token = none ∧
       getItem (handleHTTPError st status msg rid).2.storage "crm_auth_token" = none ∧
       (handleHTTPError st status msg rid).2.events =
         st.events ++
           [{ eventName := "auth-token-changed", hasToken := some false },
            { eventName := "auth-required", message := some "Please log in again" }]) ∧
    (status ≠ 401 → (handleHTTPError st status msg rid).2 = st) := by
  constructor
  · intro h
    subst h
    refine ⟨rfl, rfl, ?_, ?_⟩
    · simp [handleHTTPError, handleAuthError, triggerAuthRequired, clearToken,
            getItem_removeItem]
    · simp [handleHTTPError, handleAuthError, triggerAuthRequired, clearToken]
  · intro h
    simp [handleHTTPError, beq_iff_eq, h]

/-- C6 witness: a 401 clears the token, a 404 leaves the state untouched. -/
theorem auth_error_classification_effects_witness :
    (handleHTTPError {} 401 "Unauthorized" "req_1").2.token = none ∧
    (handleHTTPError {} 404 "Missing" "req_1").2 = ({} : ClientState) :=
  ⟨((auth_error_classification_effects {} 401 "Unauthorized" "req_1").1 rfl).2.1,
   (auth_error_classification_effects {} 404 "Missing" "req_1").2 (by decide)⟩

/-- C7: the status switch maps 401, 403, 404, 429, 500 to AUTH_ERROR,
FORBIDDEN, NOT_FOUND, RATE_LIMIT, SERVER_ERROR, the gateway statuses 502,
503, 504 to NETWORK_ERROR and every other status to HTTP_ERROR, and this
is exactly the kind handleHTTPError attaches; a transport-level failure is
classified TIMEOUT on a deadline abort (AbortError), NETWORK_ERROR when
the message signals a connection failure (Network / Failed to fetch),
PARSE_ERROR when it signals a body-decode failure (JSON), UNKNOWN_ERROR
otherwise; and every error the request loop propagates carries one kind
from the closed ten-value set. -/
theorem error_taxonomy (status : Nat) (e : JsError) (msg rid : String) (st : ClientState) :
    (statusErrorType 401 = "AUTH_ERROR" ∧ statusErrorType 403 = "FORBIDDEN" ∧
     statusErrorType 404 = "NOT_FOUND" ∧ statusErrorType 429 = "RATE_LIMIT" ∧
     statusErrorType 500 = "SERVER_ERROR" ∧ statusErrorType 502 = "NETWORK_ERROR" ∧
     statusErrorType 503 = "NETWORK_ERROR" ∧ statusErrorType 504 = "NETWORK_ERROR") ∧
    (status ∉ ([401, 403, 404, 429, 500, 502, 503, 504] : List Nat) →
       statusErrorType status = "HTTP_ERROR") ∧
    (handleHTTPError st status msg rid).1.type = some (statusErrorType status) ∧
    ((e.name = "AbortError" → determineErrorType e = "TIMEOUT") ∧
     (e.name ≠ "AbortError" →
        (strIncludes e.message "Network" = true ∨
         strIncludes e.message "Failed to fetch" = true) →
        determineErrorType e = "NETWORK_ERROR") ∧
     (e.name ≠ "AbortError" → strIncludes e.message "Network" = false →
        strIncludes e.message "Failed to fetch" = false →
        strIncludes e.message "JSON" = true →
        determineErrorType e = "PARSE_ERROR") ∧
     (e.name ≠ "AbortError" → strIncludes e.message "Network" = false →
        strIncludes e.message "Failed to fetch" = false →
        strIncludes e.message "JSON" = false →
        determineErrorType e = "UNKNOWN_ERROR")) ∧
    (∀ (transport : Nat → AttemptOutcome) (st2 : ClientState) (r : RequestResult)
       (s2 : ClientState) (ds : List Nat) (e2 : JsError),
       (∀ n e3, transport n = AttemptOutcome.throwErr e3 → e3.type = none) →
       request transport st2 = some (r, s2, ds) → r = RequestResult.err e2 →
       ∃ k, e2.type = some k ∧ k ∈ errorKinds) := by
  refine ⟨⟨rfl, rfl, rfl, rfl, rfl, rfl, rfl, rfl⟩, ?_, rfl, ⟨?_, ?_, ?_, ?_⟩, ?_⟩
  · intro h
    simp only [List.mem_cons, List.not_mem_nil, not_or, or_false] at h
    obtain ⟨h1, h2, h3, h4, h5, h6, h7, h8⟩ := h
    simp [statusErrorType, beq_iff_eq, h1, h2, h3, h4, h5, h6, h7, h8]
  · intro h
    simp [determineErrorType, beq_iff_eq, h]
  · intro h hm
    rcases hm with hm | hm <;> simp [determineErrorType, beq_iff_eq, h, hm]
  · intro h hN hF hJ
    simp [determineErrorType, beq_iff_eq, h, hN, hF, hJ]
  · intro h hN hF hJ
    simp [determineErrorType, beq_iff_eq, h, hN, hF, hJ]
  · intro transport st2 r s2 ds e2 hraw heq hr
    exact requestGo_err_kinds 4 transport st2 none r s2 ds e2 hraw heq hr

/-- C7 witness: an unlisted status, a deadline abort, and a live run whose
terminal error kind lies in the taxonomy. -/
theorem error_taxonomy_witness :
    statusErrorType 418 = "HTTP_ERROR" ∧
    determineErrorType { name := "AbortError", message := "aborted" } = "TIMEOUT" ∧
    (∃ k, (some "NETWORK_ERROR" : Option String) = some k ∧ k ∈ errorKinds) := by
  refine ⟨?_, ?_, ?_⟩
  · exact (error_taxonomy 418 { name := "AbortError", message := "aborted" }
      "m" "r" {}).2.1 (by decide)
  · exact (error_taxonomy 418 { name := "AbortError", message := "aborted" }
      "m" "r" {}).2.2.2.1.1 rfl
  · exact (error_taxonomy 418 { name := "AbortError", message := "aborted" }
      "m" "r" {}).2.2.2.2
      (fun _ => AttemptOutcome.throwErr { name := "TypeError", message := "Failed to fetch" })
      {} _ _ _ _ (by intro n e3 h; cases h; rfl) rfl rfl

/-- C8 counterexample: setToken with the empty-string token stores it and
emits its single token-changed notification with hasToken = false — the
detail is computed as !!token — where the claim requires hasToken = true
after every setToken. -/
theorem empty_token_notification :
    (setToken {} "").token = some "" ∧
    (setToken {} "").events =
      [{ eventName := "auth-token-changed", hasToken := some false }] ∧
    ({ eventName := "auth-token-changed", hasToken := some false } : Notification) ≠
      { eventName := "auth-token-changed", hasToken := some true } :=
  ⟨rfl, rfl, by decide⟩

/-- C8 (amended): setToken t followed by a read yields t (in memory and in
storage) and clearToken followed by a read yields nothing; each transition
emits exactly one token-changed notification, carrying hasToken = (t is
nonempty) — hence true for every nonempty token — after setToken and
hasToken = false after clearToken. -/
theorem token_roundtrip (st : ClientState) (t : String) :
    (setToken st t).token = some t ∧
    getItem (setToken st t).storage "crm_auth_token" = some t ∧
    (setToken st t).events =
      st.events ++ [{ eventName := "auth-token-changed", hasToken := some (t != "") }] ∧
    (clearToken st).token = none ∧
    getItem (clearToken st).storage "crm_auth_token" = none ∧
    (clearToken st).events =
      st.events ++ [{ eventName := "auth-token-changed", hasToken := some false }] :=
  ⟨rfl, getItem_setItem st.storage "crm_auth_token" t, rfl, rfl,
   getItem_removeItem st.storage "crm_auth_token", rfl⟩

/-- C9 counterexample: an unmatched POST route resolves with the
success-true object, which is not the empty structured object the claim
promises for every unmatched route of both verbs. -/
theorem mock_post_unmatched_not_empty :
    mockPost 0 {} "/nonexistent" (JsonVal.obj []) =
      (JsonVal.obj [("success", JsonVal.jbool true)], {}) ∧
    JsonVal.obj [("success", JsonVal.jbool true)] ≠ JsonVal.obj [] :=
  ⟨rfl, by simp⟩

/-- C9 (amended): in mock mode every unmatched GET route resolves
successfully with the empty object, and every unmatched POST route
resolves successfully with the success-true object (leaving the client
state untouched); neither fails. -/
theorem unmatched_mock_routes (now : Int) (prefs : Option JsonVal) (st : ClientState)
    (endpoint : String) (data : JsonVal) :
    (stripQuery endpoint ∉ (["/opportunities", "/sales-orders", "/dashboard/summary",
        "/helpdesk-tickets", "/user/preferences"] : List String) →
      mockGet now prefs endpoint = JsonVal.obj []) ∧
    (endpoint ∉ (["/pdf/generate", "/email/send", "/auth/login", "/auth/logout",
        "/auth/refresh"] : List String) →
      mockPost now st endpoint data = (JsonVal.obj [("success", JsonVal.jbool true)], st)) := by
  constructor
  · intro h
    simp only [List.mem_cons, List.not_mem_nil, not_or, or_false] at h
    obtain ⟨h1, h2, h3, h4, h5⟩ := h
    simp [mockGet, beq_iff_eq, h1, h2, h3, h4, h5]
  · intro h
    simp only [List.mem_cons, List.not_mem_nil, not_or, or_false] at h
    obtain ⟨h1, h2, h3, h4, h5⟩ := h
    simp [mockPost, beq_iff_eq, h1, h2, h3, h4, h5]

/-- C9 witness: a concrete endpoint no fixture matches. -/
theorem unmatched_mock_routes_witness :
    mockGet 0 none "/nope" = JsonVal.obj [] ∧
    mockPost 0 {} "/nope" (JsonVal.obj []) =
      (JsonVal.obj [("success", JsonVal.jbool true)], ({} : ClientState)) :=
  ⟨(unmatched_mock_routes 0 none {} "/nope" (JsonVal.obj [])).1 (by decide),
   (unmatched_mock_routes 0 none {} "/nope" (JsonVal.obj [])).2 (by decide)⟩

/-- C10: logout always resolves (it never propagates an error) and always
clears the token, in memory and in storage, whatever the underlying
/auth/logout call does to the state and whether it resolves or rejects:
the catch block swallows the failure and the finally block runs
clearToken unconditionally. -/
theorem logout_always_resolves_and_clears
    (post : ClientState → PostOutcome × ClientState) (st : ClientState) :
    (logout post st).1 = none ∧ (logout post st).2.token = none ∧
    getItem (logout post st).2.storage "crm_auth_token" = none := by
  rcases h : post st with ⟨o, st1⟩
  cases o <;> simp [logout, h, clearToken, getItem_removeItem]

end ApiService
